import Mathlib

/-!
Verification of the Prima Scholar Scoring & Prediction Engine
(`src/backend/models/excellence_engine.py`, `src/backend/services/prediction_service.py`).

Shallow embedding conventions:
* Python floats are modelled as `ℚ`; counts (numbers of courses, projects,
  publications, ...) are modelled as `ℕ`, since they count things; measured
  scores coming from the database (GPA, session quality, leadership impact)
  are modelled as `ℚ` and may carry any sign, exactly as the Python code
  accepts them.
* `datetime.now()` / `date.today()` are modelled by an explicit clock
  parameter `now : ℤ`.
* Python `round(x, k)` is round-half-to-even at `k` decimal digits; it is
  embedded exactly (`roundHalfEven`).
* Database access is delegated: the engine functions receive the fetched
  rows / the persistence outcome as parameters.
* Functions of the repository whose bodies are not present in the provided
  source (the engine file ends in the middle of `_identify_improvement_factors`)
  are modelled from the spec and marked `Modelled from the spec:` in their
  doc comment.
-/

namespace PrimaScholar

/-- Trend tag of `student_data['gpa_trend']`; any value other than
`'improving'`/`'declining'` behaves like `'stable'` in the source. -/
inductive GpaTrend
  | improving
  | declining
  | stable
deriving DecidableEq, Repr

/-- Academic level tag (`student_data['academic_level']`). `other` stands for
any unknown string, which the spec maps to the default multiplier. -/
inductive AcademicLevel
  | undergraduate
  | graduate
  | doctoral
  | postdoc
  | other
deriving DecidableEq, Repr

/-- One entry of `student_data['mentorship_sessions']`: the two fields the
engine reads (`session_quality_score`, `query_sophistication`). -/
structure MentorshipSession where
  session_quality_score : ℚ
  query_sophistication : String
deriving DecidableEq, Repr

/-- The fields of the `student_data` dict read by the excellence engine
(missing dict keys default to `0` / empty in the source, so the structure is
total). -/
structure StudentData where
  current_gpa : ℚ
  honors_courses : ℕ
  gpa_trend : GpaTrend
  academic_achievements : List String
  research_projects : ℕ
  publications : ℕ
  presentations : ℕ
  mentorship_sessions : List MentorshipSession
  theoretical_frameworks_engaged : ℕ
  elite_tier_documents : ℕ
  leadership_roles : List String
  service_hours : ℕ
  leadership_impact_score : ℚ
  original_projects : ℕ
  creative_works : ℕ
  innovative_approaches_suggested : ℕ
  profile_age_days : ℕ
  academic_level : AcademicLevel
deriving DecidableEq, Repr

/-- The `ExcellenceFactors` dataclass. -/
structure ExcellenceFactors where
  academic_performance : ℚ
  research_engagement : ℚ
  critical_thinking : ℚ
  leadership_service : ℚ
  innovation_creativity : ℚ
deriving DecidableEq, Repr

/-- The `DistinctionRequirement` dataclass; the `weight_factors` dict has the
two keys `'gpa'` and `'excellence'`, embedded as two fields. -/
structure DistinctionRequirement where
  gpa_min : ℚ
  excellence_score_min : ℚ
  additional_requirements : List String
  weight_gpa : ℚ
  weight_excellence : ℚ
deriving DecidableEq, Repr

/-- `self.factor_weights` (a string-keyed dict of the five aggregation
weights; absent keys read 0, which never happens in the source). -/
def factor_weights (key : String) : ℚ :=
  if key = "academic_performance" then 0.40
  else if key = "research_engagement" then 0.25
  else if key = "critical_thinking" then 0.20
  else if key = "leadership_service" then 0.10
  else if key = "innovation_creativity" then 0.05
  else 0

/-- `self.distinction_requirements[name]` with the `name not in dict` test:
`none` exactly when the name is not one of the six configured distinctions. -/
def lookupRequirement (name : String) : Option DistinctionRequirement :=
  if name = "Dean_List" then
    some ⟨3.5, 75, ["top_15_percent", "full_time_enrollment"], 0.6, 0.4⟩
  else if name = "Magna_Cum_Laude" then
    some ⟨3.7, 85, ["cumulative_gpa", "credit_hours_minimum"], 0.5, 0.5⟩
  else if name = "Summa_Cum_Laude" then
    some ⟨3.9, 95, ["thesis_defense", "faculty_recommendation"], 0.4, 0.6⟩
  else if name = "Phi_Beta_Kappa" then
    some ⟨3.8, 90, ["liberal_arts_focus", "character_assessment"], 0.45, 0.55⟩
  else if name = "Rhodes_Scholar" then
    some ⟨3.9, 98, ["leadership_evidence", "athletic_achievement", "service_commitment"], 0.3, 0.7⟩
  else if name = "Fulbright_Scholar" then
    some ⟨3.8, 92, ["research_proposal", "language_proficiency", "cultural_sensitivity"], 0.35, 0.65⟩
  else none

/-- `_calculate_academic_performance` (lines 161-183). Note: the return value
is `min(base_score + bonus, 100)` — capped above only. -/
def calcAcademicPerformance (d : StudentData) : ℚ :=
  let gpa := d.current_gpa
  let base_score := min ((gpa / 4) * 100) 100
  let bonus : ℚ := 0
  let bonus := if 0 < d.honors_courses then bonus + min ((d.honors_courses : ℚ) * 2) 10 else bonus
  let bonus :=
    match d.gpa_trend with
    | GpaTrend.improving => bonus + 5
    | GpaTrend.declining => bonus - 5
    | GpaTrend.stable => bonus
  let bonus := bonus + min ((d.academic_achievements.length : ℚ) * 3) 15
  min (base_score + bonus) 100

/-- `_calculate_research_engagement` (lines 185-204). -/
def calcResearchEngagement (d : StudentData) : ℚ :=
  let base : ℚ := 20
  let base := base + min ((d.research_projects : ℚ) * 15) 40
  let base := base + min ((d.publications : ℚ) * 20 + (d.presentations : ℚ) * 10) 30
  let base :=
    if d.mentorship_sessions ≠ [] then
      let avg := (d.mentorship_sessions.map (fun s => s.session_quality_score)).sum /
        (d.mentorship_sessions.length : ℚ)
      base + min (avg * 10) 10
    else base
  min base 100

/-- The `sophistication_scores` dict of `_calculate_critical_thinking_score`
with its `.get(level, 10)` default. -/
def sophisticationScore (level : String) : ℚ :=
  if level = "basic" then 10
  else if level = "intermediate" then 25
  else if level = "advanced" then 40
  else if level = "scholar" then 60
  else 10

/-- `_calculate_critical_thinking_score` (lines 206-236). -/
def calcCriticalThinking (d : StudentData) : ℚ :=
  let base : ℚ := 40
  let base :=
    if d.mentorship_sessions ≠ [] then
      let avg := (d.mentorship_sessions.map
        (fun s => sophisticationScore s.query_sophistication)).sum /
        (d.mentorship_sessions.length : ℚ)
      max base avg
    else base
  let base := base + min ((d.theoretical_frameworks_engaged : ℚ) * 3) 20
  let base := base + min ((d.elite_tier_documents : ℚ) * 5) 15
  min base 100

/-- `_calculate_leadership_score` (lines 238-254). -/
def calcLeadership (d : StudentData) : ℚ :=
  let base : ℚ := 10
  let base := base + min ((d.leadership_roles.length : ℚ) * 15) 45
  let base := base + min ((d.service_hours : ℚ) / 10) 25
  let base := base + min d.leadership_impact_score 20
  min base 100

/-- `_calculate_innovation_score` (lines 256-272). -/
def calcInnovation (d : StudentData) : ℚ :=
  let base : ℚ := 30
  let base := base + min ((d.original_projects : ℚ) * 10) 30
  let base := base + min ((d.creative_works : ℚ) * 15) 25
  let base := base + min ((d.innovative_approaches_suggested : ℚ) * 2) 15
  min base 100

/-- `_calculate_excellence_factors` (lines 135-159). -/
def calcExcellenceFactors (d : StudentData) : ExcellenceFactors :=
  { academic_performance := calcAcademicPerformance d
    research_engagement := calcResearchEngagement d
    critical_thinking := calcCriticalThinking d
    leadership_service := calcLeadership d
    innovation_creativity := calcInnovation d }

/-- A student record with every signal at zero / empty (the dict-default
values of the source). -/
def zeroStudent : StudentData :=
  { current_gpa := 0
    honors_courses := 0
    gpa_trend := GpaTrend.stable
    academic_achievements := []
    research_projects := 0
    publications := 0
    presentations := 0
    mentorship_sessions := []
    theoretical_frameworks_engaged := 0
    elite_tier_documents := 0
    leadership_roles := []
    service_hours := 0
    leadership_impact_score := 0
    original_projects := 0
    creative_works := 0
    innovative_approaches_suggested := 0
    profile_age_days := 0
    academic_level := AcademicLevel.undergraduate }

/-- The input of claim C1's edge case: gpa 0, a declining trend, no honors
courses and no achievements. -/
def c1Student : StudentData :=
  { zeroStudent with gpa_trend := GpaTrend.declining }

/-- Claim C1: the spec states that every `ExcellenceFactors` field lies in
[0,100], in particular that `academic_performance` is never negative even at
gpa 0 with a declining trend. The source computes `-5` there: the trend
penalty is applied to a zero base and the result is only capped above
(`min(..., 100)`), contradicting the function's own docstring
"Calculate academic performance factor (0-100)". -/
theorem c1_academic_performance_negative :
    calcAcademicPerformance c1Student = -5 ∧ calcAcademicPerformance c1Student < 0 := by
  constructor
  · norm_num [calcAcademicPerformance, c1Student, zeroStudent, min_def]
  · norm_num [calcAcademicPerformance, c1Student, zeroStudent, min_def]

/-- Modelled from the spec: the body of `_get_level_multiplier` is absent from
the provided source (the engine file ends inside `_identify_improvement_factors`).
Spec §4.2: undergraduate 1.0, graduate 1.3, doctoral 1.6, postdoc 2.0, unknown
level defaults to 1.0. -/
def getLevelMultiplier : AcademicLevel → ℚ
  | AcademicLevel.undergraduate => 1
  | AcademicLevel.graduate => 1.3
  | AcademicLevel.doctoral => 1.6
  | AcademicLevel.postdoc => 2
  | AcademicLevel.other => 1

/-- Python's `round` on a value with no remaining fractional digits:
round-half-to-even to the nearest integer. -/
def roundHalfEven (q : ℚ) : ℤ :=
  let f := ⌊q⌋
  let r := q - f
  if r < 1/2 then f
  else if 1/2 < r then f + 1
  else if f % 2 = 0 then f else f + 1

/-- Python `round(q, 2)`. -/
def round2 (q : ℚ) : ℚ := (roundHalfEven (q * 100) : ℚ) / 100

/-- Python `round(q, 1)`. -/
def round1 (q : ℚ) : ℚ := (roundHalfEven (q * 10) : ℚ) / 10

/-- Outcome of the delegated persistence write.

Modelled from the spec: the body of `_update_excellence_score_in_db` is absent
from the provided source. Spec §6 gives the collaborator contract
`persistScore(student_id, score, factors) -> ok | Error` — best-effort, and
"failure must not prevent returning the computed score to the caller" — so the
write reports failure as a status value instead of raising; the engine receives
that status and ignores it. -/
inductive PersistOutcome
  | ok
  | failed (msg : String)
deriving DecidableEq, Repr

/-- The dict returned by `calculate_excellence_score` (lines 118-129):
the final score and the five factors rounded to two decimals, the level
multiplier, and the `datetime.now()` timestamp. -/
structure ScoreResult where
  excellence_score : ℚ
  academic_performance : ℚ
  research_engagement : ℚ
  critical_thinking : ℚ
  leadership_service : ℚ
  innovation_creativity : ℚ
  level_multiplier : ℚ
  calculated_at : ℤ
deriving DecidableEq, Repr

/-- The weighted total of lines 103-109 (`total_score`). -/
def totalScore (d : StudentData) : ℚ :=
  let factors := calcExcellenceFactors d
  factors.academic_performance * factor_weights "academic_performance" +
    factors.research_engagement * factor_weights "research_engagement" +
    factors.critical_thinking * factor_weights "critical_thinking" +
    factors.leadership_service * factor_weights "leadership_service" +
    factors.innovation_creativity * factor_weights "innovation_creativity"

/-- `calculate_excellence_score` (lines 90-133) on the path where student data
is available. The student data is passed in directly (the claims fix a data
snapshot); `persist` is the status reported by the delegated score/trajectory
write of line 116, which the source ignores; `now` is the clock reading. -/
def calculate_excellence_score (d : StudentData) (persist : PersistOutcome) (now : ℤ) :
    ScoreResult :=
  let factors := calcExcellenceFactors d
  let total_score := totalScore d
  let level_multiplier := getLevelMultiplier d.academic_level
  let final_score := min (total_score * level_multiplier) 100
  let _ := persist
  { excellence_score := round2 final_score
    academic_performance := round2 factors.academic_performance
    research_engagement := round2 factors.research_engagement
    critical_thinking := round2 factors.critical_thinking
    leadership_service := round2 factors.leadership_service
    innovation_creativity := round2 factors.innovation_creativity
    level_multiplier := level_multiplier
    calculated_at := now }

/-- Claim C2: a failed persistence write does not change what
`calculate_excellence_score` returns — the caller receives exactly the result
it would have received had the write succeeded (the computed score, not an
error). Spec-modelled: the persistence helper's body is missing from the
provided source and is taken, per spec §6, to report failure as a status value
rather than raising. -/
theorem c2_persistence_failure_still_returns_score (d : StudentData) (msg : String) (now : ℤ) :
    calculate_excellence_score d (PersistOutcome.failed msg) now =
      calculate_excellence_score d PersistOutcome.ok now := rfl

/-- The input refuting claim C3's exact-equality reading: a GPA with enough
decimal digits that rounding the returned score to two decimals loses
information. -/
def c3Student : StudentData :=
  { zeroStudent with current_gpa := 3.0001 }

/-- Expansion of `totalScore` through the weight dict: the five literal
weights of `self.factor_weights`. -/
theorem totalScore_eq (d : StudentData) :
    totalScore d = calcAcademicPerformance d * 0.40 + calcResearchEngagement d * 0.25 +
      calcCriticalThinking d * 0.20 + calcLeadership d * 0.10 + calcInnovation d * 0.05 := by
  have ha : factor_weights "academic_performance" = 0.40 := rfl
  have hr : factor_weights "research_engagement" = 0.25 := rfl
  have hc : factor_weights "critical_thinking" = 0.20 := rfl
  have hl : factor_weights "leadership_service" = 0.10 := rfl
  have hi : factor_weights "innovation_creativity" = 0.05 := rfl
  unfold totalScore calcExcellenceFactors
  rw [ha, hr, hc, hl, hi]

/-- Claim C3, counterexample: at gpa 3.0001 the weighted formula gives
45.501 while the function returns `round(45.501, 2) = 45.5`; the two values
differ (45.5 < 45.501), so the returned score is not equal to
`min(100, Σ(factor·weight) · level_multiplier)`. -/
theorem c3_returned_score_is_rounded :
    (calculate_excellence_score c3Student PersistOutcome.ok 0).excellence_score = 455/10 ∧
      min 100 ((calcAcademicPerformance c3Student * 0.40 +
        calcResearchEngagement c3Student * 0.25 +
        calcCriticalThinking c3Student * 0.20 +
        calcLeadership c3Student * 0.10 +
        calcInnovation c3Student * 0.05) *
          getLevelMultiplier c3Student.academic_level) = 45501/1000 ∧
      (455/10 : ℚ) < 45501/1000 := by
  have h1 : calcAcademicPerformance c3Student = 750025/10000 := by
    norm_num [calcAcademicPerformance, c3Student, zeroStudent, min_def]
  have h2 : calcResearchEngagement c3Student = 20 := by
    norm_num [calcResearchEngagement, c3Student, zeroStudent, min_def]
  have h3 : calcCriticalThinking c3Student = 40 := by
    norm_num [calcCriticalThinking, c3Student, zeroStudent, min_def]
  have h4 : calcLeadership c3Student = 10 := by
    norm_num [calcLeadership, c3Student, zeroStudent, min_def]
  have h5 : calcInnovation c3Student = 30 := by
    norm_num [calcInnovation, c3Student, zeroStudent, min_def]
  have hmul : getLevelMultiplier c3Student.academic_level = 1 := rfl
  have htot : totalScore c3Student = 45501/1000 := by
    rw [totalScore_eq, h1, h2, h3, h4, h5]; norm_num
  refine ⟨?_, ?_, by norm_num⟩
  · have hs : (calculate_excellence_score c3Student PersistOutcome.ok 0).excellence_score =
        round2 (min (totalScore c3Student * getLevelMultiplier c3Student.academic_level) 100) :=
      rfl
    rw [hs, htot, hmul]
    norm_num [round2, roundHalfEven, min_def]
  · rw [h1, h2, h3, h4, h5, hmul]
    norm_num [min_def]

/-- Claim C3 amended: the returned excellence score equals
`min(100, Σ(factor·weight) · level_multiplier)` rounded half-to-even at two
decimal places (Python `round(x, 2)`, line 119 of the source). -/
theorem c3_score_formula_amended (d : StudentData) (persist : PersistOutcome) (now : ℤ) :
    (calculate_excellence_score d persist now).excellence_score =
      round2 (min 100 ((calcAcademicPerformance d * 0.40 +
        calcResearchEngagement d * 0.25 +
        calcCriticalThinking d * 0.20 +
        calcLeadership d * 0.10 +
        calcInnovation d * 0.05) *
          getLevelMultiplier d.academic_level)) := by
  have hs : (calculate_excellence_score d persist now).excellence_score =
      round2 (min (totalScore d * getLevelMultiplier d.academic_level) 100) := rfl
  rw [hs, min_comm, totalScore_eq]

/-- The ordinary-least-squares slope `np.polyfit(x, ys, 1)[0]` with
`x = np.arange(len(ys))`: the closed form
`b = (nΣxy − ΣxΣy) / (nΣx² − (Σx)²)` over the points `(i, ys[i])`,
`i = 0..n−1` (for a degree-1 fit over distinct abscissae, `np.polyfit`
computes exactly this least-squares coefficient; spec §4.3 states the same
closed form). -/
def polyfitSlope (ys : List ℚ) : ℚ :=
  let n : ℚ := ys.length
  let sx : ℚ := ∑ i ∈ Finset.range ys.length, (i : ℚ)
  let sy : ℚ := ∑ i ∈ Finset.range ys.length, ys.getD i 0
  let sxy : ℚ := ∑ i ∈ Finset.range ys.length, (i : ℚ) * ys.getD i 0
  let sxx : ℚ := ∑ i ∈ Finset.range ys.length, (i : ℚ) * (i : ℚ)
  (n * sxy - sx * sy) / (n * sxx - sx * sx)

/-- `_analyze_improvement_trajectory` (lines 347-381) after the database
fetch: the input is the list of `excellence_score` values of the fetched rows,
in the query's order (`trajectory_date DESC`, newest first, at most 10 rows);
the source reverses it into chronological order before fitting, and clamps
`0.5 + slope/20` into `[0, 1]` via `max(0, min(1, ...))`. -/
def analyze_improvement_trajectory (trajectoryData : List ℚ) : ℚ :=
  if trajectoryData.length < 2 then 0.5
  else
    let scores := trajectoryData.reverse
    let slope := polyfitSlope scores
    max 0 (min 1 (0.5 + slope / 20))

/-- On a history of length ≥ 2 the momentum is the clamped affine image of
the slope of the chronological (reversed) score list. -/
theorem trajectory_reverse_eq (h : List ℚ) (hge : 2 ≤ h.length) :
    analyze_improvement_trajectory h.reverse =
      max 0 (min 1 (0.5 + polyfitSlope h / 20)) := by
  unfold analyze_improvement_trajectory
  rw [if_neg (by simp only [List.length_reverse]; omega), List.reverse_reverse]

/-- Claim C4: the momentum is exactly 0.5 for fewer than two points, and for a
chronologically ordered history `h` of length ≥ 2 (fetched newest-first, hence
the function receives `h.reverse`) it is `clamp(0.5 + b/20, 0, 1)` where `b`
is the ordinary-least-squares slope over the pairs `(i, h[i])`,
`i = 0..n−1`, earliest first. -/
theorem c4_trajectory_momentum_formula (h : List ℚ) :
    (h.length < 2 → analyze_improvement_trajectory h = 0.5) ∧
      (2 ≤ h.length →
        analyze_improvement_trajectory h.reverse =
          max 0 (min 1 (0.5 + polyfitSlope h / 20))) := by
  constructor
  · intro hlt
    unfold analyze_improvement_trajectory
    rw [if_pos hlt]
  · intro hge
    exact trajectory_reverse_eq h hge

/-- Witness for C4 at the concrete two-point history [75, 80]
(slope 5, momentum 0.75). -/
theorem c4_trajectory_momentum_formula_witness :
    analyze_improvement_trajectory (List.reverse [(75 : ℚ), 80]) =
      max 0 (min 1 (0.5 + polyfitSlope [(75 : ℚ), 80] / 20)) :=
  (c4_trajectory_momentum_formula [(75 : ℚ), 80]).2 (by simp)

/-- `n·Σfg − Σf·Σg` as half of a double sum of pairwise products — the
workhorse identity for the sign of the regression slope. -/
theorem double_sum_expand (n : ℕ) (f g : ℕ → ℚ) :
    ∑ i ∈ Finset.range n, ∑ j ∈ Finset.range n, (f i - f j) * (g i - g j)
      = 2 * ((n : ℚ) * (∑ i ∈ Finset.range n, f i * g i)
        - (∑ i ∈ Finset.range n, f i) * (∑ i ∈ Finset.range n, g i)) := by
  have expand : ∀ i j : ℕ, (f i - f j) * (g i - g j)
      = f i * g i - f i * g j - f j * g i + f j * g j := by
    intro i j; ring
  have hfg : ∑ i ∈ Finset.range n, ∑ j ∈ Finset.range n, f i * g j
      = (∑ i ∈ Finset.range n, f i) * (∑ j ∈ Finset.range n, g j) :=
    (Finset.sum_mul_sum (Finset.range n) (Finset.range n) f g).symm
  have hgf : ∑ i ∈ Finset.range n, ∑ j ∈ Finset.range n, f j * g i
      = (∑ j ∈ Finset.range n, f j) * (∑ i ∈ Finset.range n, g i) := by
    rw [Finset.sum_comm]
    exact (Finset.sum_mul_sum (Finset.range n) (Finset.range n) f g).symm
  simp only [expand, Finset.sum_add_distrib, Finset.sum_sub_distrib,
    Finset.sum_const, Finset.card_range, nsmul_eq_mul]
  rw [← Finset.mul_sum, hfg, hgf]
  ring

/-- For a strictly increasing sequence every pairwise product
`(i−j)(yᵢ−yⱼ)` is nonnegative. -/
theorem mono_term_nonneg (y : ℕ → ℚ) (len : ℕ)
    (hm : ∀ i j, i < j → j < len → y i < y j) :
    ∀ i ∈ Finset.range len, ∀ j ∈ Finset.range len,
      0 ≤ ((i : ℚ) - (j : ℚ)) * (y i - y j) := by
  intro i hi j hj
  rw [Finset.mem_range] at hi hj
  rcases lt_trichotomy i j with hlt | heq | hgt
  · have hc : (i : ℚ) < (j : ℚ) := by exact_mod_cast hlt
    have hy : y i < y j := hm i j hlt hj
    nlinarith
  · subst heq; simp
  · have hc : (j : ℚ) < (i : ℚ) := by exact_mod_cast hgt
    have hy : y j < y i := hm j i hgt hi
    nlinarith

/-- The regression numerator `nΣxy − ΣxΣy` is positive for a strictly
increasing sequence of length ≥ 2. -/
theorem slope_num_pos (y : ℕ → ℚ) (len : ℕ) (h2 : 2 ≤ len)
    (hm : ∀ i j, i < j → j < len → y i < y j) :
    0 < (len : ℚ) * (∑ i ∈ Finset.range len, (i : ℚ) * y i)
      - (∑ i ∈ Finset.range len, (i : ℚ)) * (∑ i ∈ Finset.range len, y i) := by
  have key := double_sum_expand len (fun i => (i : ℚ)) y
  have hterm := mono_term_nonneg y len hm
  have hpos : 0 < ∑ i ∈ Finset.range len, ∑ j ∈ Finset.range len,
      ((i : ℚ) - (j : ℚ)) * (y i - y j) := by
    apply Finset.sum_pos'
    · intro i hi
      exact Finset.sum_nonneg (fun j hj => hterm i hi j hj)
    · refine ⟨0, Finset.mem_range.2 (by omega), ?_⟩
      apply Finset.sum_pos'
      · intro j hj
        exact hterm 0 (Finset.mem_range.2 (by omega)) j hj
      · refine ⟨1, Finset.mem_range.2 (by omega), ?_⟩
        have hy : y 0 < y 1 := hm 0 1 (by omega) (by omega)
        push_cast
        nlinarith
  linarith [key ▸ hpos]

/-- The regression numerator is negative for a strictly decreasing sequence
of length ≥ 2. -/
theorem slope_num_neg (y : ℕ → ℚ) (len : ℕ) (h2 : 2 ≤ len)
    (hm : ∀ i j, i < j → j < len → y j < y i) :
    (len : ℚ) * (∑ i ∈ Finset.range len, (i : ℚ) * y i)
      - (∑ i ∈ Finset.range len, (i : ℚ)) * (∑ i ∈ Finset.range len, y i) < 0 := by
  have key := double_sum_expand len (fun i => (i : ℚ)) y
  have hterm : ∀ i ∈ Finset.range len, ∀ j ∈ Finset.range len,
      0 ≤ -(((i : ℚ) - (j : ℚ)) * (y i - y j)) := by
    intro i hi j hj
    rw [Finset.mem_range] at hi hj
    rcases lt_trichotomy i j with hlt | heq | hgt
    · have hc : (i : ℚ) < (j : ℚ) := by exact_mod_cast hlt
      have hy : y j < y i := hm i j hlt hj
      nlinarith
    · subst heq; simp
    · have hc : (j : ℚ) < (i : ℚ) := by exact_mod_cast hgt
      have hy : y i < y j := hm j i hgt hi
      nlinarith
  have hpos : 0 < ∑ i ∈ Finset.range len, ∑ j ∈ Finset.range len,
      (-(((i : ℚ) - (j : ℚ)) * (y i - y j))) := by
    apply Finset.sum_pos'
    · intro i hi
      exact Finset.sum_nonneg (fun j hj => hterm i hi j hj)
    · refine ⟨0, Finset.mem_range.2 (by omega), ?_⟩
      apply Finset.sum_pos'
      · intro j hj
        exact hterm 0 (Finset.mem_range.2 (by omega)) j hj
      · refine ⟨1, Finset.mem_range.2 (by omega), ?_⟩
        have hy : y 1 < y 0 := hm 0 1 (by omega) (by omega)
        push_cast
        nlinarith
  have hflip : ∑ i ∈ Finset.range len, ∑ j ∈ Finset.range len,
      (-(((i : ℚ) - (j : ℚ)) * (y i - y j)))
      = -∑ i ∈ Finset.range len, ∑ j ∈ Finset.range len,
          (((i : ℚ) - (j : ℚ)) * (y i - y j)) := by
    simp
  rw [hflip] at hpos
  linarith [key, hpos]

/-- The regression denominator `nΣx² − (Σx)²` is positive for n ≥ 2 points
with abscissae `0..n−1`. -/
theorem slope_den_pos (len : ℕ) (h2 : 2 ≤ len) :
    0 < (len : ℚ) * (∑ i ∈ Finset.range len, (i : ℚ) * (i : ℚ))
      - (∑ i ∈ Finset.range len, (i : ℚ)) * (∑ i ∈ Finset.range len, (i : ℚ)) := by
  have key := double_sum_expand len (fun i => (i : ℚ)) (fun i => (i : ℚ))
  have hpos : 0 < ∑ i ∈ Finset.range len, ∑ j ∈ Finset.range len,
      ((i : ℚ) - (j : ℚ)) * ((i : ℚ) - (j : ℚ)) := by
    apply Finset.sum_pos'
    · intro i _
      exact Finset.sum_nonneg (fun j _ => mul_self_nonneg _)
    · refine ⟨0, Finset.mem_range.2 (by omega), ?_⟩
      apply Finset.sum_pos'
      · intro j _
        exact mul_self_nonneg _
      · refine ⟨1, Finset.mem_range.2 (by omega), ?_⟩
        push_cast
        norm_num
  linarith [key ▸ hpos]

/-- The fitted slope of a strictly increasing score list is positive. -/
theorem polyfitSlope_pos (ys : List ℚ) (h2 : 2 ≤ ys.length)
    (hm : ∀ i j, i < j → j < ys.length → ys.getD i 0 < ys.getD j 0) :
    0 < polyfitSlope ys := by
  have hnum := slope_num_pos (fun i => ys.getD i 0) ys.length h2 hm
  have hden := slope_den_pos ys.length h2
  unfold polyfitSlope
  exact div_pos hnum hden

/-- The fitted slope of a strictly decreasing score list is negative. -/
theorem polyfitSlope_neg (ys : List ℚ) (h2 : 2 ≤ ys.length)
    (hm : ∀ i j, i < j → j < ys.length → ys.getD j 0 < ys.getD i 0) :
    polyfitSlope ys < 0 := by
  have hnum := slope_num_neg (fun i => ys.getD i 0) ys.length h2 hm
  have hden := slope_den_pos ys.length h2
  unfold polyfitSlope
  exact div_neg_of_neg_of_pos hnum hden

/-- A pairwise-`<` list is strictly increasing in its positional reads. -/
theorem pairwise_lt_getD (l : List ℚ) (hp : l.Pairwise (· < ·)) :
    ∀ i j, i < j → j < l.length → l.getD i 0 < l.getD j 0 := by
  intro i j hij hj
  have hi : i < l.length := hij.trans hj
  have h1 : l.getD i 0 = l.get ⟨i, hi⟩ := by
    rw [List.getD_eq_getElem l 0 hi]
    rfl
  have h2 : l.getD j 0 = l.get ⟨j, hj⟩ := by
    rw [List.getD_eq_getElem l 0 hj]
    rfl
  rw [h1, h2]
  exact List.pairwise_iff_get.1 hp ⟨i, hi⟩ ⟨j, hj⟩ hij

/-- A pairwise-`>` list is strictly decreasing in its positional reads. -/
theorem pairwise_gt_getD (l : List ℚ) (hp : l.Pairwise (· > ·)) :
    ∀ i j, i < j → j < l.length → l.getD j 0 < l.getD i 0 := by
  intro i j hij hj
  have hi : i < l.length := hij.trans hj
  have h1 : l.getD i 0 = l.get ⟨i, hi⟩ := by
    rw [List.getD_eq_getElem l 0 hi]
    rfl
  have h2 : l.getD j 0 = l.get ⟨j, hj⟩ := by
    rw [List.getD_eq_getElem l 0 hj]
    rfl
  rw [h1, h2]
  exact List.pairwise_iff_get.1 hp ⟨i, hi⟩ ⟨j, hj⟩ hij

/-- Claim C8: over a chronological history `hist` of length ≥ 2 (the function
receives the newest-first fetch `hist.reverse`), a strictly increasing score
sequence yields momentum strictly above 0.5 and a strictly decreasing one
yields momentum strictly below 0.5. -/
theorem c8_momentum_tracks_monotone_history (hist : List ℚ) (h2 : 2 ≤ hist.length) :
    (hist.Pairwise (· < ·) → 1/2 < analyze_improvement_trajectory hist.reverse) ∧
      (hist.Pairwise (· > ·) → analyze_improvement_trajectory hist.reverse < 1/2) := by
  have heq := trajectory_reverse_eq hist h2
  constructor
  · intro hp
    have hs : 0 < polyfitSlope hist := polyfitSlope_pos hist h2 (pairwise_lt_getD hist hp)
    rw [heq]
    have hhalf : (1 : ℚ)/2 < min 1 (0.5 + polyfitSlope hist / 20) := by
      apply lt_min
      · norm_num
      · norm_num
        linarith
    exact hhalf.trans_le (le_max_right 0 _)
  · intro hp
    have hs : polyfitSlope hist < 0 := polyfitSlope_neg hist h2 (pairwise_gt_getD hist hp)
    rw [heq]
    apply max_lt
    · norm_num
    · have : min 1 (0.5 + polyfitSlope hist / 20) ≤ 0.5 + polyfitSlope hist / 20 :=
        min_le_right 1 _
      norm_num at this ⊢
      linarith

/-- Witness for C8: the two-point histories [60, 65] (strictly increasing)
and [65, 60] (strictly decreasing). -/
theorem c8_momentum_tracks_monotone_history_witness :
    1/2 < analyze_improvement_trajectory (List.reverse [(60 : ℚ), 65]) ∧
      analyze_improvement_trajectory (List.reverse [(65 : ℚ), 60]) < 1/2 :=
  ⟨(c8_momentum_tracks_monotone_history [(60 : ℚ), 65] (by simp)).1
      (by norm_num [List.pairwise_cons]),
    (c8_momentum_tracks_monotone_history [(65 : ℚ), 60] (by simp)).2
      (by norm_num [List.pairwise_cons])⟩

/-- Half-even rounding never drops below an integer lower bound. -/
theorem le_roundHalfEven (n : ℤ) (q : ℚ) (h : (n : ℚ) ≤ q) : n ≤ roundHalfEven q := by
  have hf : n ≤ ⌊q⌋ := Int.le_floor.2 h
  unfold roundHalfEven
  dsimp only
  split_ifs <;> omega

/-- Half-even rounding never exceeds an integer upper bound. -/
theorem roundHalfEven_le (n : ℤ) (q : ℚ) (h : q ≤ (n : ℚ)) : roundHalfEven q ≤ n := by
  have hf : ⌊q⌋ ≤ n := by
    have h1 : ⌊q⌋ ≤ ⌊(n : ℚ)⌋ := Int.floor_le_floor h
    simpa using h1
  have hup : (1 : ℚ)/2 ≤ q - ⌊q⌋ → ⌊q⌋ + 1 ≤ n := by
    intro hr
    by_contra hc
    push_neg at hc
    have hn : n = ⌊q⌋ := by omega
    have hq1 : q ≤ (⌊q⌋ : ℚ) := by
      rw [← hn]; exact h
    have hq2 : (⌊q⌋ : ℚ) ≤ q := Int.floor_le q
    have : q - ⌊q⌋ = 0 := by linarith
    rw [this] at hr
    norm_num at hr
  unfold roundHalfEven
  dsimp only
  split_ifs with ha hb hcases
  · exact hf
  · exact hup (le_of_lt hb)
  · exact hf
  · exact hup (by linarith [not_lt.1 ha])

/-- `round(x, 1)` preserves an integer upper bound. -/
theorem round1_le (n : ℤ) (x : ℚ) (h : x ≤ (n : ℚ)) : round1 x ≤ (n : ℚ) := by
  unfold round1
  rw [div_le_iff₀ (by norm_num : (0:ℚ) < 10)]
  have h10 : x * 10 ≤ ((10 * n : ℤ) : ℚ) := by push_cast; linarith
  have := roundHalfEven_le (10 * n) (x * 10) h10
  calc (roundHalfEven (x * 10) : ℚ) ≤ ((10 * n : ℤ) : ℚ) := by exact_mod_cast this
    _ = (n : ℚ) * 10 := by push_cast; ring

/-- `round(x, 1)` preserves nonnegativity. -/
theorem round1_nonneg (x : ℚ) (h : 0 ≤ x) : 0 ≤ round1 x := by
  unfold round1
  apply div_nonneg _ (by norm_num)
  have := le_roundHalfEven 0 (x * 10) (by push_cast; linarith)
  exact_mod_cast this

/-- `round(x, 2)` preserves nonnegativity. -/
theorem round2_nonneg (x : ℚ) (h : 0 ≤ x) : 0 ≤ round2 x := by
  unfold round2
  apply div_nonneg _ (by norm_num)
  have := le_roundHalfEven 0 (x * 100) (by push_cast; linarith)
  exact_mod_cast this

/-- The momentum factor always lies in [0, 1] (clamped, or the neutral 0.5). -/
theorem trajectory_mem_unit (h : List ℚ) :
    0 ≤ analyze_improvement_trajectory h ∧ analyze_improvement_trajectory h ≤ 1 := by
  unfold analyze_improvement_trajectory
  split_ifs
  · norm_num
  · constructor
    · exact le_max_left 0 _
    · exact max_le (by norm_num) (min_le_left 1 _)

/-- `_calculate_prediction_confidence` (lines 383-407). The `distinction`
argument of the source is never read. Dict-truthiness of the five
completeness fields: a number is present iff nonzero, a list iff nonempty. -/
def calculate_prediction_confidence (d : StudentData) : ℚ :=
  let base : ℚ := 70
  let completeness : ℚ :=
    ((if d.current_gpa ≠ 0 then 1 else 0) + (if d.mentorship_sessions ≠ [] then 1 else 0) +
      (if d.academic_achievements ≠ [] then 1 else 0) + (if d.research_projects ≠ 0 then 1 else 0) +
      (if d.leadership_roles ≠ [] then 1 else 0)) / 5
  let base := base + completeness * 20
  let sessions_count := d.mentorship_sessions.length
  let base := if 10 ≤ sessions_count then base + 10
    else if 5 ≤ sessions_count then base + 5 else base
  let base := if 90 ≤ d.profile_age_days then base + 5 else base
  min base 95

/-- Typed failures of the prediction operation (spec §7: `UnknownDistinction`
for a name missing from the requirement table, `NotFound` for a missing
student record). -/
inductive PredictError
  | unknownDistinction (name : String)
  | notFound
deriving DecidableEq, Repr

/-- The dict returned by `predict_distinction_probability` (lines 322-336). -/
structure PredictionResult where
  distinction : String
  probability : ℚ
  confidence : ℚ
  current_excellence_score : ℚ
  required_excellence_score : ℚ
  current_gpa : ℚ
  required_gpa : ℚ
  gap : ℚ
  improvement_factors : List String
  estimated_achievement_date : Option ℤ
  trajectory_factor : ℚ
  key_factors : List String
  calculated_at : ℤ
deriving DecidableEq, Repr

/-- Modelled from the spec: the body of `_identify_improvement_factors` is cut
off in the provided source (the file ends inside it). Spec §4.4 step 10: a
ranked list of the sub-factors furthest below the proportional share implied
by the requirement — guidance text only, never affecting probability. The
deterministic stand-in lists, in fixed factor order, the factors below the
required excellence score. -/
def identifyImprovementFactors (d : StudentData) (req : DistinctionRequirement) :
    List String :=
  let pairs := [("academic_performance", calcAcademicPerformance d),
    ("research_engagement", calcResearchEngagement d),
    ("critical_thinking", calcCriticalThinking d),
    ("leadership_service", calcLeadership d),
    ("innovation_creativity", calcInnovation d)]
  (pairs.filter (fun p => p.2 < req.excellence_score_min)).map (fun p => p.1)

/-- Modelled from the spec: the body of `_get_key_success_factors` is absent
from the provided source; it surfaces the static per-distinction guidance of
the requirement table (the additional requirement tags). -/
def getKeySuccessFactors (req : DistinctionRequirement) : List String :=
  req.additional_requirements

/-- Modelled from the spec: the body of `_estimate_achievement_timeline` is
absent from the provided source. Spec §4.4 step 9: when the trajectory factor
exceeds 0.5 and the gap is positive, project `gap / slope` forward from the
current date; otherwise explicitly no projection. `today` is the clock
reading; the returned value is a day number. -/
def estimateAchievementTimeline (history : List ℚ) (current required : ℚ) (today : ℤ) :
    Option ℤ :=
  let trajectory_factor := analyze_improvement_trajectory history
  let gap := max 0 (required - current)
  if 1/2 < trajectory_factor ∧ 0 < gap then
    some (today + ⌈gap / polyfitSlope history.reverse⌉)
  else none

/-- `predict_distinction_probability` (lines 274-345) on the path where the
student record exists. `d` is the fetched student snapshot, `history` the
newest-first trajectory fetch consumed by `_analyze_improvement_trajectory`,
`persist` the status of the delegated best-effort prediction write of line
339 (ignored by the source), and `now` the clock reading. -/
def predict_distinction_probability (d : StudentData) (history : List ℚ)
    (distinction : String) (persist : PersistOutcome) (now : ℤ) :
    Except PredictError PredictionResult :=
  match lookupRequirement distinction with
  | none => Except.error (PredictError.unknownDistinction distinction)
  | some requirement =>
    let excellence_data := calculate_excellence_score d persist now
    let current_excellence := excellence_data.excellence_score
    let current_gpa := d.current_gpa
    let gpa_factor := if 0 < requirement.gpa_min then min (current_gpa / requirement.gpa_min) 1
      else 1
    let excellence_factor := min (current_excellence / requirement.excellence_score_min) 1
    let base_probability :=
      (gpa_factor * requirement.weight_gpa + excellence_factor * requirement.weight_excellence) *
        100
    let trajectory_factor := analyze_improvement_trajectory history
    let trajectory_adjusted := base_probability * (0.7 + trajectory_factor * 0.3)
    let confidence := calculate_prediction_confidence d
    let final_probability := min trajectory_adjusted 95
    Except.ok
      { distinction := distinction
        probability := round1 final_probability
        confidence := round1 confidence
        current_excellence_score := current_excellence
        required_excellence_score := requirement.excellence_score_min
        current_gpa := current_gpa
        required_gpa := requirement.gpa_min
        gap := max 0 (requirement.excellence_score_min - current_excellence)
        improvement_factors := identifyImprovementFactors d requirement
        estimated_achievement_date :=
          estimateAchievementTimeline history current_excellence
            requirement.excellence_score_min now
        trajectory_factor := round2 trajectory_factor
        key_factors := getKeySuccessFactors requirement
        calculated_at := now }

/-- Claim C5: a distinction name with no entry in the requirement table yields
the typed `UnknownDistinction` error — no default or guessed requirement is
substituted. -/
theorem c5_unknown_distinction_is_error (d : StudentData) (history : List ℚ)
    (name : String) (persist : PersistOutcome) (now : ℤ)
    (h : lookupRequirement name = none) :
    predict_distinction_probability d history name persist now =
      Except.error (PredictError.unknownDistinction name) := by
  unfold predict_distinction_probability
  rw [h]

/-- Witness for C5 at the concrete unknown name "Nobel_Prize". -/
theorem c5_unknown_distinction_is_error_witness :
    predict_distinction_probability zeroStudent [] "Nobel_Prize" PersistOutcome.ok 0 =
      Except.error (PredictError.unknownDistinction "Nobel_Prize") :=
  c5_unknown_distinction_is_error zeroStudent [] "Nobel_Prize" PersistOutcome.ok 0 rfl

/-- With a nonnegative GPA the academic factor is at least −5 (the worst case
is the −5 declining-trend penalty on a zero base). -/
theorem academic_ge_neg_five (d : StudentData) (hgpa : 0 ≤ d.current_gpa) :
    -5 ≤ calcAcademicPerformance d := by
  unfold calcAcademicPerformance
  dsimp only
  have hbase : (0 : ℚ) ≤ min ((d.current_gpa / 4) * 100) 100 := by
    apply le_min
    · positivity
    · norm_num
  have hhon : (0 : ℚ) ≤ (if 0 < d.honors_courses then
      (0 : ℚ) + min ((d.honors_courses : ℚ) * 2) 10 else 0) := by
    split_ifs
    · have : (0 : ℚ) ≤ min ((d.honors_courses : ℚ) * 2) 10 := by
        apply le_min
        · positivity
        · norm_num
      linarith
    · norm_num
  have hach : (0 : ℚ) ≤ min ((d.academic_achievements.length : ℚ) * 3) 15 := by
    apply le_min
    · positivity
    · norm_num
  apply le_min _ (by norm_num)
  cases d.gpa_trend <;> dsimp only <;> linarith

/-- When every mentorship-session quality score is nonnegative, research
engagement is at least its base constant 20. -/
theorem research_ge_twenty (d : StudentData)
    (hq : ∀ s ∈ d.mentorship_sessions, 0 ≤ s.session_quality_score) :
    20 ≤ calcResearchEngagement d := by
  unfold calcResearchEngagement
  dsimp only
  have h1 : (0 : ℚ) ≤ min ((d.research_projects : ℚ) * 15) 40 := by
    apply le_min
    · positivity
    · norm_num
  have h2 : (0 : ℚ) ≤ min ((d.publications : ℚ) * 20 + (d.presentations : ℚ) * 10) 30 := by
    apply le_min
    · positivity
    · norm_num
  have hsum : (0 : ℚ) ≤ (d.mentorship_sessions.map (fun s => s.session_quality_score)).sum :=
    List.sum_nonneg (by
      intro x hx
      rw [List.mem_map] at hx
      obtain ⟨s, hs, rfl⟩ := hx
      exact hq s hs)
  have h3 : (0 : ℚ) ≤ min ((d.mentorship_sessions.map (fun s => s.session_quality_score)).sum /
      (d.mentorship_sessions.length : ℚ) * 10) 10 := by
    apply le_min
    · positivity
    · norm_num
  apply le_min _ (by norm_num)
  split_ifs
  · linarith
  · linarith

/-- Critical thinking is at least its base constant 40 for every input: the
session average only enters through `max(40, ...)` and the two bonuses are
nonnegative counts. -/
theorem thinking_ge_forty (d : StudentData) : 40 ≤ calcCriticalThinking d := by
  unfold calcCriticalThinking
  dsimp only
  have h1 : (0 : ℚ) ≤ min ((d.theoretical_frameworks_engaged : ℚ) * 3) 20 := by
    apply le_min
    · positivity
    · norm_num
  have h2 : (0 : ℚ) ≤ min ((d.elite_tier_documents : ℚ) * 5) 15 := by
    apply le_min
    · positivity
    · norm_num
  apply le_min _ (by norm_num)
  split_ifs
  · have : (40 : ℚ) ≤ max 40 ((d.mentorship_sessions.map
        (fun s => sophisticationScore s.query_sophistication)).sum /
        (d.mentorship_sessions.length : ℚ)) := le_max_left _ _
    linarith
  · linarith

/-- With a nonnegative leadership impact score, leadership/service is at
least its base constant 10. -/
theorem leadership_ge_ten (d : StudentData) (himp : 0 ≤ d.leadership_impact_score) :
    10 ≤ calcLeadership d := by
  unfold calcLeadership
  dsimp only
  have h1 : (0 : ℚ) ≤ min ((d.leadership_roles.length : ℚ) * 15) 45 := by
    apply le_min
    · positivity
    · norm_num
  have h2 : (0 : ℚ) ≤ min ((d.service_hours : ℚ) / 10) 25 := by
    apply le_min
    · positivity
    · norm_num
  have h3 : (0 : ℚ) ≤ min d.leadership_impact_score 20 := by
    apply le_min himp (by norm_num)
  apply le_min _ (by norm_num)
  linarith

/-- Innovation/creativity is at least its base constant 30 for every input. -/
theorem innovation_ge_thirty (d : StudentData) : 30 ≤ calcInnovation d := by
  unfold calcInnovation
  dsimp only
  have h1 : (0 : ℚ) ≤ min ((d.original_projects : ℚ) * 10) 30 := by
    apply le_min
    · positivity
    · norm_num
  have h2 : (0 : ℚ) ≤ min ((d.creative_works : ℚ) * 15) 25 := by
    apply le_min
    · positivity
    · norm_num
  have h3 : (0 : ℚ) ≤ min ((d.innovative_approaches_suggested : ℚ) * 2) 15 := by
    apply le_min
    · positivity
    · norm_num
  apply le_min _ (by norm_num)
  linarith

/-- Every configured level multiplier is at least 1. -/
theorem one_le_levelMultiplier (l : AcademicLevel) : 1 ≤ getLevelMultiplier l := by
  cases l <;> norm_num [getLevelMultiplier]

/-- Under the three nonnegativity conditions on the measured inputs, the
returned excellence score is nonnegative. -/
theorem excellence_score_nonneg (d : StudentData) (persist : PersistOutcome) (now : ℤ)
    (hgpa : 0 ≤ d.current_gpa)
    (hq : ∀ s ∈ d.mentorship_sessions, 0 ≤ s.session_quality_score)
    (himp : 0 ≤ d.leadership_impact_score) :
    0 ≤ (calculate_excellence_score d persist now).excellence_score := by
  have ha := academic_ge_neg_five d hgpa
  have hr := research_ge_twenty d hq
  have ht := thinking_ge_forty d
  have hl := leadership_ge_ten d himp
  have hi := innovation_ge_thirty d
  have htot : 0 ≤ totalScore d := by
    rw [totalScore_eq]
    nlinarith
  have hmul := one_le_levelMultiplier d.academic_level
  have hfin : 0 ≤ min (totalScore d * getLevelMultiplier d.academic_level) 100 := by
    apply le_min
    · nlinarith
    · norm_num
  have hs : (calculate_excellence_score d persist now).excellence_score =
      round2 (min (totalScore d * getLevelMultiplier d.academic_level) 100) := rfl
  rw [hs]
  exact round2_nonneg _ hfin

/-- The input refuting claim C10 as stated: a negative leadership impact
score is subtracted undamped (`min(impact, 20)` has no lower clamp), pulling
the leadership factor far below its base constant 10. -/
def c10Student : StudentData :=
  { zeroStudent with leadership_impact_score := -100 }

/-- Claim C10, counterexample: with `leadership_impact_score = -100` the
leadership factor is `10 + min(-100, 20) = -90 < 10`, so the claimed
unconditional lower bounds do not hold for every input — the
`min(impact, 20)` and `min(avg_quality·10, 10)` adjustments can be negative. -/
theorem c10_leadership_below_base :
    calcLeadership c10Student = -90 ∧ calcLeadership c10Student < 10 := by
  constructor
  · norm_num [calcLeadership, c10Student, zeroStudent, min_def]
  · norm_num [calcLeadership, c10Student, zeroStudent, min_def]

/-- Claim C10 amended: the undocumented lower bounds hold with the two
conditions the counterexample forces — `critical_thinking ≥ 40` and
`innovation_creativity ≥ 30` unconditionally; `research_engagement ≥ 20`
whenever every mentorship-session quality score is nonnegative; and
`leadership_service ≥ 10` whenever the leadership impact score is
nonnegative. -/
theorem c10_factor_lower_bounds (d : StudentData) :
    40 ≤ calcCriticalThinking d ∧ 30 ≤ calcInnovation d ∧
      ((∀ s ∈ d.mentorship_sessions, 0 ≤ s.session_quality_score) →
        20 ≤ calcResearchEngagement d) ∧
      (0 ≤ d.leadership_impact_score → 10 ≤ calcLeadership d) :=
  ⟨thinking_ge_forty d, innovation_ge_thirty d,
    fun hq => research_ge_twenty d hq, fun himp => leadership_ge_ten d himp⟩

/-- Witness for C10 at the all-zero student (empty session list, zero impact
score). -/
theorem c10_factor_lower_bounds_witness :
    20 ≤ calcResearchEngagement zeroStudent ∧ 10 ≤ calcLeadership zeroStudent :=
  ⟨(c10_factor_lower_bounds zeroStudent).2.2.1 (by simp [zeroStudent]),
    (c10_factor_lower_bounds zeroStudent).2.2.2 (by norm_num [zeroStudent])⟩

/-- The input refuting claim C6 as stated: `predict_distinction_probability`
succeeds on a negative GPA (nothing validates it) and returns a negative
probability. -/
def c6Student : StudentData :=
  { zeroStudent with current_gpa := -4 }

/-- Claim C6, counterexample: at gpa −4 the Dean_List prediction succeeds and
returns probability −69.4 < 0, so the probability of a successful call is not
always in [0, 95]. -/
theorem c6_negative_probability :
    Except.map (fun r => r.probability)
        (predict_distinction_probability c6Student [] "Dean_List" PersistOutcome.ok 0) =
      Except.ok (-347/5 : ℚ) ∧ (-347/5 : ℚ) < 0 := by
  constructor
  · have hexc : (calculate_excellence_score c6Student PersistOutcome.ok 0).excellence_score =
        -49/2 := by
      have h1 : calcAcademicPerformance c6Student = -100 := by
        norm_num [calcAcademicPerformance, c6Student, zeroStudent, min_def]
      have h2 : calcResearchEngagement c6Student = 20 := by
        norm_num [calcResearchEngagement, c6Student, zeroStudent, min_def]
      have h3 : calcCriticalThinking c6Student = 40 := by
        norm_num [calcCriticalThinking, c6Student, zeroStudent, min_def]
      have h4 : calcLeadership c6Student = 10 := by
        norm_num [calcLeadership, c6Student, zeroStudent, min_def]
      have h5 : calcInnovation c6Student = 30 := by
        norm_num [calcInnovation, c6Student, zeroStudent, min_def]
      have htot : totalScore c6Student = -49/2 := by
        rw [totalScore_eq, h1, h2, h3, h4, h5]; norm_num
      have hs : (calculate_excellence_score c6Student PersistOutcome.ok 0).excellence_score =
          round2 (min (totalScore c6Student * getLevelMultiplier c6Student.academic_level) 100) :=
        rfl
      have hmul : getLevelMultiplier c6Student.academic_level = 1 := rfl
      rw [hs, htot, hmul]
      have hfl : ⌊(-49 : ℚ)/2 * 1 * 100⌋ = -2450 := by norm_num
      norm_num [round2, roundHalfEven, hfl]
    have hreq : lookupRequirement "Dean_List" =
        some ⟨3.5, 75, ["top_15_percent", "full_time_enrollment"], 0.6, 0.4⟩ := rfl
    unfold predict_distinction_probability
    rw [hreq]
    dsimp only [Except.map]
    rw [hexc]
    have htraj : analyze_improvement_trajectory ([] : List ℚ) = 0.5 := by
      norm_num [analyze_improvement_trajectory]
    rw [htraj]
    have hgpa : c6Student.current_gpa = -4 := rfl
    rw [hgpa]
    have hfinal : min ((min ((-4 : ℚ) / 3.5) 1 * 0.6 + min ((-49 : ℚ)/2 / 75) 1 * 0.4) * 100 *
        (0.7 + 0.5 * 0.3)) 95 = -36431/525 := by
      norm_num [min_def]
    rw [if_pos (by norm_num : (0 : ℚ) < 3.5), hfinal]
    have hr1 : round1 (-36431/525 : ℚ) = -347/5 := by
      have hfl : ⌊(-36431 : ℚ)/525 * 10⌋ = -694 := by
        norm_num [Int.floor_eq_iff]
      norm_num [round1, roundHalfEven, hfl]
    rw [hr1]
  · norm_num

/-- Every requirement in the configured table has positive thresholds and
nonnegative weights. -/
theorem lookupRequirement_props (name : String) (req : DistinctionRequirement)
    (h : lookupRequirement name = some req) :
    0 < req.gpa_min ∧ 0 < req.excellence_score_min ∧
      0 ≤ req.weight_gpa ∧ 0 ≤ req.weight_excellence := by
  unfold lookupRequirement at h
  split_ifs at h <;> simp only [Option.some.injEq] at h <;> (rw [← h]; norm_num)

/-- `round(x, 1)` of a value capped at 95 stays at most 95. -/
theorem round1_le95 (x : ℚ) (h : x ≤ 95) : round1 x ≤ 95 := by
  have h95 : x ≤ ((95 : ℤ) : ℚ) := by exact_mod_cast h
  have := round1_le 95 x h95
  push_cast at this
  exact this

/-- `round(x, 1)` of `min x 95` is at most 95. -/
theorem round1_min95_le (x : ℚ) : round1 (min x 95) ≤ 95 :=
  round1_le95 _ (min_le_right x 95)

set_option maxHeartbeats 2000000 in
/-- The prediction confidence always lies in [0, 95]. -/
theorem confidence_bounds (d : StudentData) :
    0 ≤ calculate_prediction_confidence d ∧ calculate_prediction_confidence d ≤ 95 := by
  unfold calculate_prediction_confidence
  dsimp only
  constructor
  · have hcomp : (0 : ℚ) ≤ ((if d.current_gpa ≠ 0 then (1:ℚ) else 0) +
        (if d.mentorship_sessions ≠ [] then (1:ℚ) else 0) +
        (if d.academic_achievements ≠ [] then (1:ℚ) else 0) +
        (if d.research_projects ≠ 0 then (1:ℚ) else 0) +
        (if d.leadership_roles ≠ [] then (1:ℚ) else 0)) / 5 := by
      have h1 : (0:ℚ) ≤ if d.current_gpa ≠ 0 then (1:ℚ) else 0 := by split_ifs <;> norm_num
      have h2 : (0:ℚ) ≤ if d.mentorship_sessions ≠ [] then (1:ℚ) else 0 := by
        split_ifs <;> norm_num
      have h3 : (0:ℚ) ≤ if d.academic_achievements ≠ [] then (1:ℚ) else 0 := by
        split_ifs <;> norm_num
      have h4 : (0:ℚ) ≤ if d.research_projects ≠ 0 then (1:ℚ) else 0 := by
        split_ifs <;> norm_num
      have h5 : (0:ℚ) ≤ if d.leadership_roles ≠ [] then (1:ℚ) else 0 := by
        split_ifs <;> norm_num
      linarith
    rw [le_min_iff]
    constructor
    · split_ifs <;> linarith
    · norm_num
  · exact min_le_right _ _

/-- Claim C6 amended: for every successful call, `probability ≤ 95` and
`confidence ∈ [0, 95]` hold unconditionally; the lower bound
`0 ≤ probability` additionally requires the measured inputs to be
nonnegative (GPA, session quality scores, leadership impact score), since a
negative GPA drives the probability negative. -/
theorem c6_probability_confidence_bounds (d : StudentData) (history : List ℚ)
    (name : String) (persist : PersistOutcome) (now : ℤ)
    (r : PredictionResult)
    (hr : predict_distinction_probability d history name persist now = Except.ok r) :
    (r.probability ≤ 95 ∧ 0 ≤ r.confidence ∧ r.confidence ≤ 95) ∧
      (0 ≤ d.current_gpa →
        (∀ s ∈ d.mentorship_sessions, 0 ≤ s.session_quality_score) →
        0 ≤ d.leadership_impact_score →
        0 ≤ r.probability) := by
  unfold predict_distinction_probability at hr
  cases hlook : lookupRequirement name with
  | none =>
    rw [hlook] at hr
    exact absurd hr (by simp)
  | some req =>
    rw [hlook] at hr
    obtain ⟨hgmin, hemin, hwg, hwe⟩ := lookupRequirement_props name req hlook
    simp only [Except.ok.injEq] at hr
    subst hr
    dsimp only
    have htr := trajectory_mem_unit history
    have hconf := confidence_bounds d
    refine ⟨⟨round1_min95_le _, round1_nonneg _ hconf.1, round1_le95 _ hconf.2⟩, ?_⟩
    intro hgpa hq himp
    have hexc : 0 ≤ (calculate_excellence_score d persist now).excellence_score :=
      excellence_score_nonneg d persist now hgpa hq himp
    have hadj : 0 ≤ ((if 0 < req.gpa_min then min (d.current_gpa / req.gpa_min) 1 else 1) *
        req.weight_gpa + min ((calculate_excellence_score d persist now).excellence_score /
          req.excellence_score_min) 1 * req.weight_excellence) * 100 *
        (0.7 + analyze_improvement_trajectory history * 0.3) := by
      rw [if_pos hgmin]
      have h1 : 0 ≤ min (d.current_gpa / req.gpa_min) 1 :=
        le_min (div_nonneg hgpa hgmin.le) zero_le_one
      have h2 : 0 ≤ min ((calculate_excellence_score d persist now).excellence_score /
          req.excellence_score_min) 1 :=
        le_min (div_nonneg hexc hemin.le) zero_le_one
      have hbase : 0 ≤ (min (d.current_gpa / req.gpa_min) 1 * req.weight_gpa +
          min ((calculate_excellence_score d persist now).excellence_score /
            req.excellence_score_min) 1 * req.weight_excellence) * 100 :=
        mul_nonneg (add_nonneg (mul_nonneg h1 hwg) (mul_nonneg h2 hwe)) (by norm_num)
      have h07 : (0 : ℚ) ≤ 0.7 + analyze_improvement_trajectory history * 0.3 := by
        nlinarith [htr.1]
      exact mul_nonneg hbase h07
    exact round1_nonneg _ (le_min hadj (by norm_num))

/-- The Dean_List prediction of the all-zero student at clock reading `now`,
written out in full. -/
def zeroStudentDeanListResult (now : ℤ) : PredictionResult :=
  { distinction := "Dean_List"
    probability := 7
    confidence := 70
    current_excellence_score := 31/2
    required_excellence_score := 75
    current_gpa := 0
    required_gpa := 3.5
    gap := 119/2
    improvement_factors := ["academic_performance", "research_engagement",
      "critical_thinking", "leadership_service", "innovation_creativity"]
    estimated_achievement_date := none
    trajectory_factor := 1/2
    key_factors := ["top_15_percent", "full_time_enrollment"]
    calculated_at := now }

/-- Full evaluation of the Dean_List prediction on the all-zero student:
only the `calculated_at` field depends on the clock. -/
theorem predict_zero_eval (now : ℤ) :
    predict_distinction_probability zeroStudent [] "Dean_List" PersistOutcome.ok now =
      Except.ok (zeroStudentDeanListResult now) := by
  have h1 : calcAcademicPerformance zeroStudent = 0 := by
    norm_num [calcAcademicPerformance, zeroStudent, min_def]
  have h2 : calcResearchEngagement zeroStudent = 20 := by
    norm_num [calcResearchEngagement, zeroStudent, min_def]
  have h3 : calcCriticalThinking zeroStudent = 40 := by
    norm_num [calcCriticalThinking, zeroStudent, min_def]
  have h4 : calcLeadership zeroStudent = 10 := by
    norm_num [calcLeadership, zeroStudent, min_def]
  have h5 : calcInnovation zeroStudent = 30 := by
    norm_num [calcInnovation, zeroStudent, min_def]
  have htot : totalScore zeroStudent = 31/2 := by
    rw [totalScore_eq, h1, h2, h3, h4, h5]; norm_num
  have hexc : ∀ persist, (calculate_excellence_score zeroStudent persist now).excellence_score =
      31/2 := by
    intro persist
    have hs : (calculate_excellence_score zeroStudent persist now).excellence_score =
        round2 (min (totalScore zeroStudent *
          getLevelMultiplier zeroStudent.academic_level) 100) := rfl
    have hmul : getLevelMultiplier zeroStudent.academic_level = 1 := rfl
    rw [hs, htot, hmul]
    norm_num [round2, roundHalfEven, min_def]
  have htraj : analyze_improvement_trajectory ([] : List ℚ) = 0.5 := by
    norm_num [analyze_improvement_trajectory]
  have hreq : lookupRequirement "Dean_List" =
      some ⟨3.5, 75, ["top_15_percent", "full_time_enrollment"], 0.6, 0.4⟩ := rfl
  unfold predict_distinction_probability
  rw [hreq]
  dsimp only
  rw [hexc, htraj]
  simp only [Except.ok.injEq, PredictionResult.mk.injEq, zeroStudentDeanListResult,
    identifyImprovementFactors, h1, h2, h3, h4, h5]
  norm_num [round1, round2, roundHalfEven, min_def, max_def,
    calculate_prediction_confidence, getKeySuccessFactors,
    estimateAchievementTimeline, analyze_improvement_trajectory, List.filter,
    decide_eq_true_eq, zeroStudent]

/-- Witness for C6: the Dean_List prediction of the all-zero student
succeeds, the unconditional bounds apply to it, and it satisfies the
nonnegativity hypotheses of the lower bound. -/
theorem c6_probability_confidence_bounds_witness :
    ((zeroStudentDeanListResult 0).probability ≤ 95 ∧
      0 ≤ (zeroStudentDeanListResult 0).confidence ∧
      (zeroStudentDeanListResult 0).confidence ≤ 95) ∧
      0 ≤ (zeroStudentDeanListResult 0).probability :=
  ⟨(c6_probability_confidence_bounds zeroStudent [] "Dean_List" PersistOutcome.ok 0
      (zeroStudentDeanListResult 0) (predict_zero_eval 0)).1,
    (c6_probability_confidence_bounds zeroStudent [] "Dean_List" PersistOutcome.ok 0
      (zeroStudentDeanListResult 0) (predict_zero_eval 0)).2
      (by norm_num [zeroStudent])
      (by simp [zeroStudent])
      (by norm_num [zeroStudent])⟩

/-- Claim C7, counterexample: two calls with identical frozen inputs (same
student snapshot, same score, same history) made at different wall-clock
times return different results: the `calculated_at` field records
`datetime.now()`, so the two returned values (written out below) are not
bit-identical — their timestamps differ. -/
theorem c7_clock_breaks_bit_identity :
    predict_distinction_probability zeroStudent [] "Dean_List" PersistOutcome.ok 0 =
        Except.ok (zeroStudentDeanListResult 0) ∧
      predict_distinction_probability zeroStudent [] "Dean_List" PersistOutcome.ok 1 =
        Except.ok (zeroStudentDeanListResult 1) ∧
      (zeroStudentDeanListResult 0).calculated_at <
        (zeroStudentDeanListResult 1).calculated_at :=
  ⟨predict_zero_eval 0, predict_zero_eval 1, by norm_num [zeroStudentDeanListResult]⟩

/-- The result with its two clock-derived fields blanked out. -/
def stripClockFields (r : PredictionResult) : PredictionResult :=
  { r with calculated_at := 0, estimated_achievement_date := none }

/-- Claim C7 amended: the prediction is a deterministic function of the
frozen inputs and the clock — two calls with identical frozen inputs agree on
every field except `calculated_at` and `estimated_achievement_date` (both
derived from the call-time clock), whatever the persistence outcomes; with
the clock reading also fixed the results are bit-identical. -/
theorem c7_deterministic_modulo_clock (d : StudentData) (history : List ℚ)
    (name : String) (p1 p2 : PersistOutcome) (t1 t2 : ℤ) :
    Except.map stripClockFields (predict_distinction_probability d history name p1 t1) =
        Except.map stripClockFields (predict_distinction_probability d history name p2 t2) ∧
      predict_distinction_probability d history name p1 t1 =
        predict_distinction_probability d history name p2 t1 := by
  unfold predict_distinction_probability
  cases hlook : lookupRequirement name with
  | none => exact ⟨rfl, rfl⟩
  | some req => exact ⟨rfl, rfl⟩

/-- `get_cached_prediction` (`prediction_service.py` lines 29-44), with the
Redis call's outcome passed in: `err` stands for a raised backend exception
(including a corrupt-payload `json.loads` failure), which the source's
`except` block converts into a `None` miss; a disabled backend short-circuits
to `None`. -/
def get_cached_prediction (cache_enabled : Bool)
    (backend : Except String (Option String)) : Option String :=
  if cache_enabled = false then none
  else
    match backend with
    | Except.ok (some cached_data) => some cached_data
    | Except.ok none => none
    | Except.error _ => none

/-- `cache_prediction` (`prediction_service.py` lines 46-59) acting on an
association-list model of the Redis store; `backend_ok = false` stands for a
raised `setex` exception, which the source's `except` block swallows, leaving
the store unchanged; a disabled backend also leaves it unchanged. -/
def cache_prediction (cache_enabled : Bool) (store : List (String × String))
    (key value : String) (backend_ok : Bool) : List (String × String) :=
  if cache_enabled = false then store
  else if backend_ok then (key, value) :: store.filter (fun p => p.1 ≠ key)
  else store

/-- Claim C9: whenever the cache backend is unavailable (disabled client) or
a cache operation raises, the read behaves as a miss (`none`) and the write
leaves the store untouched; both embedded operations are total functions, so
the prediction request falls through to computation and never fails because
of the cache. -/
theorem c9_cache_degrades_to_miss (msg : String) (backend : Except String (Option String))
    (store : List (String × String)) (key value : String) (enabled bk : Bool) :
    get_cached_prediction enabled (Except.error msg) = none ∧
      cache_prediction enabled store key value false = store ∧
      get_cached_prediction false backend = none ∧
      cache_prediction false store key value bk = store := by
  refine ⟨?_, ?_, rfl, rfl⟩
  · cases enabled <;> rfl
  · cases enabled <;> rfl

end PrimaScholar
